import Mathlib

/-!
A verification development for the study-DA orchestrator.

Shallow embedding of the study-tree creation and submission entry points of
`study_da/study_da.py`, of the generation template executables
(`generation_1_dummy.py`, `generation_4_custom_dummy.py`), and of
`load_version_specific` from `generate/master_classes/xsuite_bbcw.py`.

Components of the repository whose source is not part of the corpus
(`GenerateScan.create_study`, `SubmitScan`, `study_da.utils.set_item_in_dic`)
are modelled from the specification; every such definition carries a doc
comment starting with `Modelled from the spec:`.
-/

namespace StudyDA

instance {ε α : Type} [DecidableEq ε] [DecidableEq α] : DecidableEq (Except ε α)
  | .error a, .error b =>
      if h : a = b then .isTrue (by rw [h]) else .isFalse (by simp [h])
  | .error _, .ok _ => .isFalse (by simp)
  | .ok _, .error _ => .isFalse (by simp)
  | .ok a, .ok b =>
      if h : a = b then .isTrue (by rw [h]) else .isFalse (by simp [h])

/-- Python-level errors that the embedded code can raise, together with the
orchestrator's own error taxonomy (`MalformedScanSpec`, `StudyAlreadyExists`
from the spec's §7). -/
inductive PyError where
  | nameError (name : String)
  | keyError (key : String)
  | typeError
  | valueError
  | assertionError
  | malformedScanSpec
  | studyAlreadyExists
deriving DecidableEq, Repr

/-- A scan specification as built by `create_single_job` in `study_da.py`:
a study name, a `dependencies` mapping, and a `structure` mapping from keys
of the form `generation_i` to the generation's executable name.  Python
dicts preserve insertion order, so both mappings are association lists. -/
structure ScanSpec where
  name : String
  dependencies : List (String × String)
  structure_ : List (String × String)
deriving DecidableEq, Repr

/-- Strip the literal prefix `generation_` from a key, character by
character. -/
def stripGenerationKey : List Char → Option (List Char)
  | 'g' :: 'e' :: 'n' :: 'e' :: 'r' :: 'a' :: 't' :: 'i' :: 'o' :: 'n' :: '_' :: rest =>
      some rest
  | _ => none

/-- Parse a nonempty string of decimal digits to a natural number. -/
def digitsToNat : List Char → Option Nat
  | [] => none
  | cs => cs.foldlM (fun acc c =>
      if '0' ≤ c ∧ c ≤ '9' then some (10 * acc + (c.toNat - '0'.toNat)) else none) 0

/-- Parse a structure key `generation_i` to its generation index `i`. -/
def genIndex (key : String) : Option Nat :=
  (stripGenerationKey key.data).bind digitsToNat

/-- Python dict lookup on an association list (first matching key wins;
keys in a dict are unique anyway). -/
def lookupStr {α : Type} : List (String × α) → String → Option α
  | [], _ => none
  | (k, v) :: rest, key => if k = key then some v else lookupStr rest key

/-- The generation indices declared by a scan structure, in declaration
order. -/
def declaredGens (st : List (String × String)) : List Nat :=
  st.filterMap (fun kv => genIndex kv.1)

/-- A scan structure has a gap when some generation `j ≥ 2` is declared
while generation `j - 1` is not. -/
def scanHasGap (st : List (String × String)) : Bool :=
  (declaredGens st).any (fun j => decide (2 ≤ j) && !((declaredGens st).contains (j - 1)))

/-- Modelled from the spec: the Tree Builder's validation (§4.2) — the scan
is malformed when it declares no generation at all or when generations are
not strictly sequential (a later generation without the preceding one). -/
def scanMalformed (st : List (String × String)) : Bool :=
  (declaredGens st).isEmpty || scanHasGap st

/-- Modelled from the spec: the study tree produced by the Tree Builder,
abstracted to the list of (generation index, executable) records — the
parameter expansion inside each generation is irrelevant to the claims
settled here. -/
def studyTree (st : List (String × String)) : List (Nat × String) :=
  st.filterMap (fun kv => (genIndex kv.1).map (fun j => (j, kv.2)))

/-- Modelled from the spec: `GenerateScan.create_study` (§4.2 Tree Builder).
Validation is performed first (`MalformedScanSpec` is fatal and aborts the
build, §7); an already-existing study is refused unless `force_overwrite`
is set (`StudyAlreadyExists`); otherwise the tree is built.  The on-disk
state is abstracted to the boolean `study_exists`. -/
def create_study (spec : ScanSpec) (study_exists force_overwrite : Bool) :
    Except PyError (List (Nat × String)) :=
  if scanMalformed spec.structure_ then .error .malformedScanSpec
  else if study_exists && !force_overwrite then .error .studyAlreadyExists
  else .ok (studyTree spec.structure_)

/-- Modelled from the spec: the path of the persisted tree file exposed as
`study.path_tree` after a successful `create_study`. -/
def path_tree_of (spec : ScanSpec) : String :=
  spec.name ++ "/tree.yaml"

/-- Observable effects of the creation entry points: the call to
`GenerateScan.create_study` (with the `force_overwrite` argument it was
handed) and, on success, the persisted study tree. -/
inductive CreateEvent where
  | createStudyCalled (force_overwrite : Bool)
  | treePersisted
deriving DecidableEq, Repr

/-- Default of `force_overwrite` in the signature of `create`
(`study_da.py`, line 18). -/
def create_force_overwrite_default : Bool := false

/-- Default of `force_overwrite` in the signature of `create_single_job`
(`study_da.py`, line 59). -/
def create_single_job_force_overwrite_default : Bool := false

/-- Default of `name_study` in the signature of `create_single_job`. -/
def create_single_job_name_study_default : String := "single_job_study"

/-- The `create` entry point of `study_da.py`: run `create_study`, then read
`study.config["dependencies"]["main_configuration"]` — a `KeyError` when the
key is absent — and return `(path_tree, name_main_configuration)`.  YAML
loading is out of scope (§1): the entry point receives the parsed spec. -/
def createEntry (spec : ScanSpec) (study_exists force_overwrite : Bool) :
    List CreateEvent × Except PyError (String × String) :=
  match create_study spec study_exists force_overwrite with
  | .error e => ([.createStudyCalled force_overwrite], .error e)
  | .ok _ =>
    match lookupStr spec.dependencies "main_configuration" with
    | some m =>
        ([.createStudyCalled force_overwrite, .treePersisted],
         .ok (path_tree_of spec, m))
    | none =>
        ([.createStudyCalled force_overwrite, .treePersisted],
         .error (.keyError "main_configuration"))

/-- The `dic_scan` dictionary that `create_single_job` builds
(`study_da.py`, lines 80–98): `generation_1` always, `generation_2` and
`generation_3` only when the corresponding executable is given. -/
def single_job_dic_scan (name_main_configuration name_executable_generation_1 : String)
    (name_executable_generation_2 name_executable_generation_3 : Option String)
    (name_study : String) : ScanSpec :=
  { name := name_study
    dependencies := [("main_configuration", name_main_configuration)]
    structure_ :=
      [("generation_1", name_executable_generation_1)] ++
      (match name_executable_generation_2 with
        | some e => [("generation_2", e)]
        | none => []) ++
      (match name_executable_generation_3 with
        | some e => [("generation_3", e)]
        | none => []) }

/-- The `create_single_job` entry point of `study_da.py`: build `dic_scan`,
run `create_study` on it, and return `study.path_tree`. -/
def create_single_job_run (name_main_configuration name_executable_generation_1 : String)
    (name_executable_generation_2 name_executable_generation_3 : Option String)
    (name_study : String) (force_overwrite study_exists : Bool) :
    List CreateEvent × Except PyError String :=
  let dic := single_job_dic_scan name_main_configuration name_executable_generation_1
      name_executable_generation_2 name_executable_generation_3 name_study
  match create_study dic study_exists force_overwrite with
  | .error e => ([.createStudyCalled force_overwrite], .error e)
  | .ok _ =>
      ([.createStudyCalled force_overwrite, .treePersisted], .ok (path_tree_of dic))

/-! ## The `submit` entry point

`SubmitScan` itself is not part of the corpus; its operations are modelled
from the spec as observable events, and the entry point's control flow is
translated from `study_da.py` lines 110–151. -/

/-- The per-job configuration dictionary `dic_config_jobs`
(`dict[str, dict[str, Any]]`, values abstracted to strings). -/
abbrev ConfigJobs := List (String × List (String × String))

/-- Type of `dic_additional_commands_per_gen : dict[int, str]`. -/
abbrev AdditionalCommands := List (Nat × String)

/-- Type of `dic_dependencies_per_gen : dict[int, list[str]]` — a generation may
depend on any list of prior generations, not only the immediate parent. -/
abbrev DependenciesPerGen := List (Nat × List String)

/-- Observable effects of the submission entry point, each carrying the
arguments forwarded to the underlying `SubmitScan` operation. -/
inductive SubmitEvent where
  | configureJobs (force_configure : Bool) (dic_config_jobs : Option ConfigJobs)
  | submitSweep (one_generation_at_a_time : Bool)
      (dic_additional_commands_per_gen : Option AdditionalCommands)
      (dic_dependencies_per_gen : Option DependenciesPerGen)
      (name_config : String)
  | sleep (wait_time : ℚ)
deriving DecidableEq, Repr

/-- Default of `force_configure` in the signature of `submit`. -/
def submit_force_configure_default : Bool := false

/-- Default of `name_config` in the signature of `submit`. -/
def submit_name_config_default : String := "config.yaml"

/-- Default of `one_generation_at_a_time` in the signature of `submit`. -/
def submit_one_generation_at_a_time_default : Bool := false

/-- Default of `keep_submit_until_done` in the signature of `submit`
(`study_da.py`, line 121). -/
def submit_keep_submit_until_done_default : Bool := false

/-- Default of `wait_time` in the signature of `submit`
(`study_da.py`, line 122): 30 seconds. -/
def submit_wait_time_default : ℚ := 30

/-- Modelled from the spec: `SubmitScan.keep_submit_until_done` (§4.5).
Each cycle performs one submission sweep (with the forwarded arguments);
if the whole tree is now terminal the loop returns, otherwise it sleeps
`wait_time` seconds and repeats.  The backend's doneness after each cycle
is abstracted as the finite observation list `done_after_cycle` (`true` =
every node terminal after that cycle's sweep). -/
def keep_submit_until_done (wait_time : ℚ) (dic_additional_commands_per_gen : Option AdditionalCommands)
    (dic_dependencies_per_gen : Option DependenciesPerGen) (name_config : String)
    (one_generation_at_a_time : Bool) : List Bool → List SubmitEvent
  | [] => []
  | done :: rest =>
      .submitSweep one_generation_at_a_time dic_additional_commands_per_gen
        dic_dependencies_per_gen name_config ::
      (if done then []
       else .sleep wait_time ::
         keep_submit_until_done wait_time dic_additional_commands_per_gen
           dic_dependencies_per_gen name_config one_generation_at_a_time rest)

/-- The `submit` entry point of `study_da.py` (lines 110–151): instantiate
`SubmitScan`, configure the jobs, then either enter the keep-alive loop or
perform a single submission sweep.  Paths and environment strings play no
role in the control flow and are omitted; `done_after_cycle` abstracts the
backend as in `keep_submit_until_done`. -/
def submitEntry (force_configure : Bool) (dic_config_jobs : Option ConfigJobs)
    (dic_additional_commands_per_gen : Option AdditionalCommands)
    (dic_dependencies_per_gen : Option DependenciesPerGen) (name_config : String)
    (one_generation_at_a_time keep_submit_until_done_flag : Bool) (wait_time : ℚ)
    (done_after_cycle : List Bool) : List SubmitEvent :=
  .configureJobs force_configure dic_config_jobs ::
  (if keep_submit_until_done_flag then
    keep_submit_until_done wait_time dic_additional_commands_per_gen
      dic_dependencies_per_gen name_config one_generation_at_a_time done_after_cycle
  else
    [.submitSweep one_generation_at_a_time dic_additional_commands_per_gen
      dic_dependencies_per_gen name_config])

/-! ## Nested configuration dictionaries and the generation templates

The templates `generation_1_dummy.py` and `generation_4_custom_dummy.py`
load a nested configuration, mutate it by dotted-path keys, run their own
computation (`add`), and dump the result.  Number values are modelled as
integers: no claim settled here depends on fractional values or on binary
floating-point rounding, only on which keys are read and written, in which
order, and into which file. -/

mutual
/-- A Python value inside a loaded configuration: a number, a string, or a
nested dict. -/
inductive ConfigVal where
  | num : Int → ConfigVal
  | str : String → ConfigVal
  | dict : ConfigDict → ConfigVal
deriving DecidableEq, Repr

/-- An insertion-ordered Python dict with string keys. -/
inductive ConfigDict where
  | nil : ConfigDict
  | cons : String → ConfigVal → ConfigDict → ConfigDict
deriving DecidableEq, Repr
end

/-- Assignment `d[k] = v` at one dict level: overwrite the existing binding or append
a new one (Python keeps insertion order). -/
def dictSet : ConfigDict → String → ConfigVal → ConfigDict
  | .nil, k, v => .cons k v .nil
  | .cons k' v' rest, k, v =>
      if k' = k then .cons k' v rest else .cons k' v' (dictSet rest k v)

/-- Lookup `d[k]` at one dict level: `KeyError` when absent. -/
def dictGet : ConfigDict → String → Except PyError ConfigVal
  | .nil, k => .error (.keyError k)
  | .cons k' v' rest, k => if k' = k then .ok v' else dictGet rest k

/-- Lookup `cfg[k]` — indexing a non-dict is a `TypeError`. -/
def getKey (cfg : ConfigVal) (k : String) : Except PyError ConfigVal :=
  match cfg with
  | .dict d => dictGet d k
  | _ => .error .typeError

/-- Assignment `cfg[k] = v` at the top level of a configuration. -/
def setKeyTop (cfg : ConfigVal) (k : String) (v : ConfigVal) : Except PyError ConfigVal :=
  match cfg with
  | .dict d => .ok (.dict (dictSet d k v))
  | _ => .error .typeError

mutual
/-- Walk a dotted path and assign the value at its end.  The final key is
created or overwritten (`d[k] = v`); a missing intermediate key raises
`KeyError`, and descending into a non-dict raises `TypeError`. -/
def setPath : ConfigVal → List String → ConfigVal → Except PyError ConfigVal
  | _, [], _ => .error .valueError
  | .dict d, [k], v => .ok (.dict (dictSet d k v))
  | .dict d, k :: k2 :: rest, v => (dictUpdatePath d k (k2 :: rest) v).map .dict
  | _, _ :: _, _ => .error .typeError

/-- Update the value bound to `k` by continuing the walk along `path`. -/
def dictUpdatePath : ConfigDict → String → List String → ConfigVal → Except PyError ConfigDict
  | .nil, k, _, _ => .error (.keyError k)
  | .cons k' v' rest, k, path, v =>
      if k' = k then (setPath v' path v).map (fun v2 => .cons k' v2 rest)
      else (dictUpdatePath rest k path v).map (fun d => .cons k' v' d)
end

/-- Split a character list at `'.'` separators, mirroring
`key.split(".")`. -/
def splitDots (acc : List Char) : List Char → List String
  | [] => [String.mk acc.reverse]
  | c :: rest =>
      if c = '.' then String.mk acc.reverse :: splitDots [] rest
      else splitDots (c :: acc) rest

/-- Modelled from the spec: `study_da.utils.set_item_in_dic`, the "one-off
mutation of nested config dict by dotted-path key" pattern (§9).  The spec
leaves the handling of a missing intermediate path open; here it is
resolved as an error (`KeyError`), while the final key is created or
overwritten. -/
def set_item_in_dic (dic : ConfigVal) (key : String) (value : ConfigVal) :
    Except PyError ConfigVal :=
  setPath dic (splitDots [] key.data) value

/-- Core of `os.path.basename`: everything after the last slash. -/
def basenameAux (acc : List Char) : List Char → List Char
  | [] => acc.reverse
  | c :: rest => if c = '/' then basenameAux [] rest else basenameAux (c :: acc) rest

/-- Python `os.path.basename` on a path string. -/
def os_path_basename (p : String) : String :=
  String.mk (basenameAux [] p.data)

/-- Observable effects of a template script run as `__main__`. -/
inductive ScriptEvent where
  | loadConfig (path : String)
  | setParam (key : String)
  | runAdd
  | writeFile (name : String) (cfg : ConfigVal)
deriving DecidableEq, Repr

/-- Python `float(v)`: a number converts to itself (the conversion is
value-preserving on the integral values the claims exercise).  Conversion
of numeric strings is not modelled — no claim exercises it — and, like any
non-numeric value, is mapped to an error. -/
def pyFloat : ConfigVal → Except PyError Int
  | .num q => .ok q
  | _ => .error .typeError

/-- Names bound at module level in `generation_1_dummy.py` (lines 5–15):
`logging`, `os`, and the three `study_da.utils` helpers. -/
def generation_1_dummy_imports : List String :=
  ["logging", "os", "load_dic_from_path", "set_item_in_dic", "write_dic_to_path"]

/-- Names bound at module level in `generation_4_custom_dummy.py`
(lines 8–20): `logging`, `time`, `np`, and the three `study_da.utils`
helpers — but not `os`. -/
def generation_4_custom_dummy_imports : List String :=
  ["logging", "time", "np", "load_dic_from_path", "set_item_in_dic", "write_dic_to_path"]

/-- The `add` function of `generation_1_dummy.py`:
`x = float(cfg["a_random_nest"]["x"])`,
`z = float(cfg["another_random_nest"]["and_another"]["z"])`,
`cfg["result"] = {"x_plus_z": x + z}`. -/
def gen1_add (configuration : ConfigVal) : Except PyError ConfigVal := do
  let x ← pyFloat (← getKey (← getKey configuration "a_random_nest") "x")
  let z ← pyFloat
    (← getKey (← getKey (← getKey configuration "another_random_nest") "and_another") "z")
  setKeyTop configuration "result" (.dict (.cons "x_plus_z" (.num (x + z)) .nil))

/-- The `add` function of `generation_4_custom_dummy.py`:
`b = float(cfg["a_random_nest"]["b"])`,
`x2_plus_z2 = float(cfg["result"]["x2_plus_z2"])`,
`cfg["result"] = {"x_plus_z_3": x2_plus_z2 * b}`. -/
def gen4_add (configuration : ConfigVal) : Except PyError ConfigVal := do
  let b ← pyFloat (← getKey (← getKey configuration "a_random_nest") "b")
  let x2_plus_z2 ← pyFloat (← getKey (← getKey configuration "result") "x2_plus_z2")
  setKeyTop configuration "result" (.dict (.cons "x_plus_z_3" (.num (x2_plus_z2 * b)) .nil))

/-- Resolution of `path_configuration` in both templates: the orchestrator may
substitute the `###---main_configuration---###` placeholder; when it is
left unreplaced the string still starts with `"{}"` and the template falls
back to `"config.yaml"`. -/
def resolve_path_configuration : Option String → String
  | some p => p
  | none => "config.yaml"

/-- The `for key, value in dict_mutated_parameters.items()` loop of both
templates: apply `set_item_in_dic` pair by pair in the mapping's iteration
order, stopping at the first raised error. -/
def mutate_params : ConfigVal → List (String × ConfigVal) →
    List ScriptEvent × Except PyError ConfigVal
  | cfg, [] => ([], .ok cfg)
  | cfg, (k, v) :: rest =>
    match set_item_in_dic cfg k v with
    | .ok cfg2 =>
        let r := mutate_params cfg2 rest
        (.setParam k :: r.1, r.2)
    | .error e => ([.setParam k], .error e)

/-- The `__main__` block shared by both templates: load the configuration,
mutate the injected parameters, run `add`, then dump the result to
`os.path.basename(path_configuration)` — which first resolves the name
`os` and raises `NameError` when the module was never imported.  YAML
round-tripping is out of scope (§1): the parsed file content is the
argument `file`. -/
def template_main (imports : List String) (add : ConfigVal → Except PyError ConfigVal)
    (path_configuration_injected : Option String) (file : ConfigVal)
    (dict_mutated_parameters : List (String × ConfigVal)) :
    List ScriptEvent × Except PyError ConfigVal :=
  let path_configuration := resolve_path_configuration path_configuration_injected
  let evs0 := [ScriptEvent.loadConfig path_configuration]
  let m := mutate_params file dict_mutated_parameters
  match m.2 with
  | .error e => (evs0 ++ m.1, .error e)
  | .ok cfg1 =>
    match add cfg1 with
    | .error e => (evs0 ++ m.1 ++ [.runAdd], .error e)
    | .ok cfg2 =>
      if "os" ∈ imports then
        let name_configuration := os_path_basename path_configuration
        (evs0 ++ m.1 ++ [.runAdd, .writeFile name_configuration cfg2], .ok cfg2)
      else
        (evs0 ++ m.1 ++ [.runAdd], .error (.nameError "os"))

/-- Script `generation_1_dummy.py` executed as `__main__`. -/
def generation_1_dummy_main : Option String → ConfigVal → List (String × ConfigVal) →
    List ScriptEvent × Except PyError ConfigVal :=
  template_main generation_1_dummy_imports gen1_add

/-- Script `generation_4_custom_dummy.py` executed as `__main__`. -/
def generation_4_custom_dummy_main : Option String → ConfigVal → List (String × ConfigVal) →
    List ScriptEvent × Except PyError ConfigVal :=
  template_main generation_4_custom_dummy_imports gen4_add

/-! ## `load_version_specific` from `generate/master_classes/xsuite_bbcw.py` -/

/-- Names bound at module level in `xsuite_bbcw.py` (lines 1–9): `np`,
`xt`, `scipy`, `c_light`, `mu0` — `logging` is never imported. -/
def xsuite_bbcw_imports : List String := ["np", "xt", "scipy", "c_light", "mu0"]

/-- The Python float literal `1.6` of `xsuite_bbcw.py` (`case 1.6:`),
as the exact rational `16/10`. -/
def float_lit_1_6 : ℚ := mkRat 16 10

/-- The Python float literal `1.3` of `xsuite_bbcw.py` (`case 1.3:`). -/
def float_lit_1_3 : ℚ := mkRat 13 10

/-- The Python float literal `3.0` of `xsuite_bbcw.py` (`case 3.0:`). -/
def float_lit_3_0 : ℚ := mkRat 30 10

/-- The two version-specific installation modules under
`generate/version_specific_files/`. -/
inductive BBCWInstallation where
  | hllhc16
  | runIII
deriving DecidableEq, Repr

/-- Function `load_version_specific(ver_lhc_run=None, ver_hllhc_optics=None)` from
`xsuite_bbcw.py`.  Versions are Python float literals compared by `match`;
they are modelled as rationals, which agrees with float equality on the
decimal literals involved.  The `case 1.3` and wildcard branches call
`logging.warning` before their import, so they first resolve the name
`logging`; the unmatched `ver_lhc_run` fall-through reaches the final
`return`, where `beam_list` is unbound. -/
def load_version_specific (ver_lhc_run ver_hllhc_optics : Option ℚ) :
    Except PyError BBCWInstallation :=
  if ¬ ((ver_lhc_run ≠ none ∧ ver_hllhc_optics = none) ∨
        (ver_lhc_run = none ∧ ver_hllhc_optics ≠ none)) then
    .error .assertionError
  else
    match ver_hllhc_optics with
    | some v =>
        if v = float_lit_1_6 then .ok .hllhc16
        else if "logging" ∈ xsuite_bbcw_imports then .ok .hllhc16
        else .error (.nameError "logging")
    | none =>
        match ver_lhc_run with
        | some v =>
            if v = float_lit_3_0 then .ok .runIII
            else .error (.nameError "beam_list")
        | none => .error .valueError

/-! ## Helper lemmas -/

lemma genIndex_gen1 : genIndex "generation_1" = some 1 := by decide

lemma genIndex_gen2 : genIndex "generation_2" = some 2 := by decide

lemma genIndex_gen3 : genIndex "generation_3" = some 3 := by decide

lemma declaredGens_gap13 (e1 e3 : String) :
    declaredGens [("generation_1", e1), ("generation_3", e3)] = [1, 3] := by
  simp [declaredGens, genIndex_gen1, genIndex_gen3]

lemma scanHasGap_gap13 (e1 e3 : String) :
    scanHasGap [("generation_1", e1), ("generation_3", e3)] = true := by
  simp only [scanHasGap, declaredGens_gap13]
  decide

lemma declaredGens_single (e1 : String) :
    declaredGens [("generation_1", e1)] = [1] := by
  simp [declaredGens, genIndex_gen1]

lemma scanMalformed_single (e1 : String) :
    scanMalformed [("generation_1", e1)] = false := by
  simp only [scanMalformed, scanHasGap, declaredGens_single]
  decide

/-! ## Claims about study creation -/

/-- C1: a scan structure that declares a later generation without the
preceding one existing — in particular the structure `create_single_job`
builds when `name_executable_generation_2` is `None` while
`name_executable_generation_3` is given — makes the study-tree build fail
with `MalformedScanSpec` instead of producing a tree. -/
theorem create_single_job_gap_fails_with_malformedScanSpec :
    (∀ (spec : ScanSpec) (study_exists force_overwrite : Bool),
        scanHasGap spec.structure_ = true →
        create_study spec study_exists force_overwrite = .error .malformedScanSpec) ∧
    (∀ (name_main_configuration name_executable_generation_1
          name_executable_generation_3 name_study : String)
        (force_overwrite study_exists : Bool),
        (create_single_job_run name_main_configuration name_executable_generation_1
            none (some name_executable_generation_3) name_study
            force_overwrite study_exists).2 =
          .error .malformedScanSpec) := by
  constructor
  · intro spec study_exists force_overwrite h
    simp [create_study, scanMalformed, h]
  · intro cfg e1 e3 ns fo ex
    simp [create_single_job_run, single_job_dic_scan, create_study, scanMalformed,
      scanHasGap_gap13]

/-- Witness for C1: the gapped structure `generation_1`/`generation_3`
is rejected. -/
theorem create_single_job_gap_fails_with_malformedScanSpec_witness :
    create_study ⟨"s", [("main_configuration", "m")],
        [("generation_1", "a.py"), ("generation_3", "b.py")]⟩ false false =
      .error .malformedScanSpec :=
  create_single_job_gap_fails_with_malformedScanSpec.1
    ⟨"s", [("main_configuration", "m")],
      [("generation_1", "a.py"), ("generation_3", "b.py")]⟩ false false (by decide)

/-- C4: `force_overwrite` defaults to `false` on both creation entry
points, and with that default an already-existing study is not rebuilt:
creation fails with `StudyAlreadyExists` and no tree is persisted. -/
theorem force_overwrite_defaults_false_and_existing_study_refused :
    create_force_overwrite_default = false ∧
    create_single_job_force_overwrite_default = false ∧
    (∀ spec : ScanSpec, scanMalformed spec.structure_ = false →
        createEntry spec true create_force_overwrite_default =
          ([.createStudyCalled false], .error .studyAlreadyExists)) ∧
    (∀ name_main_configuration name_executable_generation_1 name_study : String,
        create_single_job_run name_main_configuration name_executable_generation_1
            none none name_study create_single_job_force_overwrite_default true =
          ([.createStudyCalled false], .error .studyAlreadyExists)) := by
  refine ⟨rfl, rfl, ?_, ?_⟩
  · intro spec h
    simp [createEntry, create_study, h, create_force_overwrite_default]
  · intro cfg e1 ns
    simp [create_single_job_run, single_job_dic_scan, create_study,
      scanMalformed_single, create_single_job_force_overwrite_default]

/-- Witness for C4: a valid one-generation study that already exists on
disk is refused under the default `force_overwrite`. -/
theorem force_overwrite_defaults_false_and_existing_study_refused_witness :
    createEntry ⟨"s", [("main_configuration", "m")], [("generation_1", "a.py")]⟩
        true create_force_overwrite_default =
      ([.createStudyCalled false], .error .studyAlreadyExists) :=
  force_overwrite_defaults_false_and_existing_study_refused.2.2.1
    ⟨"s", [("main_configuration", "m")], [("generation_1", "a.py")]⟩ (by decide)

/-- C8: when the scan configuration lacks `dependencies.main_configuration`
and `create_study` itself succeeds, the `create` entry point still raises
`KeyError` — but only after the study tree has been built and persisted, so
the on-disk study exists while no `(path_tree, main_configuration)` pair is
returned. -/
theorem create_missing_main_configuration_fails_after_persist :
    ∀ (spec : ScanSpec) (study_exists force_overwrite : Bool),
      lookupStr spec.dependencies "main_configuration" = none →
      scanMalformed spec.structure_ = false →
      (study_exists && !force_overwrite) = false →
      createEntry spec study_exists force_overwrite =
        ([.createStudyCalled force_overwrite, .treePersisted],
         .error (.keyError "main_configuration")) := by
  intro spec study_exists force_overwrite hdep hmal hex
  simp [createEntry, create_study, hdep, hmal, hex]

/-- Witness for C8: a valid scan whose `dependencies` dict is empty builds
and persists the tree, then fails with `KeyError`. -/
theorem create_missing_main_configuration_fails_after_persist_witness :
    createEntry ⟨"s", [], [("generation_1", "a.py")]⟩ false false =
      ([.createStudyCalled false, .treePersisted],
       .error (.keyError "main_configuration")) :=
  create_missing_main_configuration_fails_after_persist
    ⟨"s", [], [("generation_1", "a.py")]⟩ false false (by decide) (by decide) (by decide)

/-! ## Claims about submission -/

lemma keep_submit_until_done_replicate (wait_time : ℚ)
    (dac : Option AdditionalCommands) (ddg : Option DependenciesPerGen)
    (nc : String) (og : Bool) (n : Nat) :
    keep_submit_until_done wait_time dac ddg nc og (List.replicate n false ++ [true]) =
      (List.replicate n
        [SubmitEvent.submitSweep og dac ddg nc, SubmitEvent.sleep wait_time]).flatten ++
        [SubmitEvent.submitSweep og dac ddg nc] := by
  induction n with
  | zero => simp [keep_submit_until_done]
  | succ n ih => simp [List.replicate_succ, keep_submit_until_done, ih]

/-- C2: with `keep_submit_until_done` left at its default `false`, `submit`
performs exactly one configure-and-submit cycle and returns; with it set to
`true`, the keep-alive loop runs with the caller's `wait_time` (default 30
seconds) and repeats — one sweep, one sleep of `wait_time` — until the
backend first reports the tree done, ending on a final sweep. -/
theorem submit_single_cycle_or_keep_alive_loop :
    submit_keep_submit_until_done_default = false ∧
    submit_wait_time_default = 30 ∧
    (∀ (fc : Bool) (dcj : Option ConfigJobs) (dac : Option AdditionalCommands)
        (ddg : Option DependenciesPerGen) (nc : String) (og : Bool) (wt : ℚ)
        (sched : List Bool),
        submitEntry fc dcj dac ddg nc og false wt sched =
          [.configureJobs fc dcj, .submitSweep og dac ddg nc]) ∧
    (∀ (fc : Bool) (dcj : Option ConfigJobs) (dac : Option AdditionalCommands)
        (ddg : Option DependenciesPerGen) (nc : String) (og : Bool) (wt : ℚ)
        (n : Nat),
        submitEntry fc dcj dac ddg nc og true wt (List.replicate n false ++ [true]) =
          .configureJobs fc dcj ::
            ((List.replicate n
              [SubmitEvent.submitSweep og dac ddg nc, SubmitEvent.sleep wt]).flatten ++
             [.submitSweep og dac ddg nc])) := by
  refine ⟨rfl, rfl, ?_, ?_⟩
  · intro fc dcj dac ddg nc og wt sched
    simp [submitEntry]
  · intro fc dcj dac ddg nc og wt n
    simp [submitEntry, keep_submit_until_done_replicate]

/-- C3: `submit` always invokes `configure_jobs` (with the caller's
`force_configure` and `dic_config_jobs`) first — a submission sweep never
occurs at an earlier position of the effect trace. -/
theorem submit_configures_before_any_sweep :
    ∀ (fc : Bool) (dcj : Option ConfigJobs) (dac : Option AdditionalCommands)
      (ddg : Option DependenciesPerGen) (nc : String) (og keep : Bool) (wt : ℚ)
      (sched : List Bool),
      (submitEntry fc dcj dac ddg nc og keep wt sched).head? =
        some (.configureJobs fc dcj) ∧
      ∀ (i : Nat) (og' : Bool) (dac' : Option AdditionalCommands)
        (ddg' : Option DependenciesPerGen) (nc' : String),
        (submitEntry fc dcj dac ddg nc og keep wt sched).get? i =
          some (.submitSweep og' dac' ddg' nc') → 0 < i := by
  intro fc dcj dac ddg nc og keep wt sched
  refine ⟨rfl, ?_⟩
  intro i og' dac' ddg' nc' h
  cases i with
  | zero => simp [submitEntry] at h
  | succ n => exact Nat.succ_pos n

/-- Witness for C3: on a concrete call the trace head is the configuration
event and the sweep sits strictly after it. -/
theorem submit_configures_before_any_sweep_witness :
    (submitEntry false none none none "config.yaml" false false 30 []).head? =
      some (.configureJobs false none) ∧ 0 < 1 :=
  ⟨(submit_configures_before_any_sweep false none none none "config.yaml"
      false false 30 []).1,
   (submit_configures_before_any_sweep false none none none "config.yaml"
      false false 30 []).2 1 false none none "config.yaml" rfl⟩

/-- C5: every control knob the spec promises is a parameter of the public
entry points and is forwarded to the underlying operation: `force_overwrite`
to `create_study` from both creation entry points, and `force_configure`
with `dic_config_jobs` to `configure_jobs`, `one_generation_at_a_time`,
`dic_additional_commands_per_gen` and `dic_dependencies_per_gen` to every
submission sweep, `keep_submit_until_done` selecting the loop, and
`wait_time` to each sleep of the keep-alive loop. -/
theorem control_knobs_exposed_and_forwarded :
    (∀ (spec : ScanSpec) (study_exists force_overwrite : Bool),
        ((createEntry spec study_exists force_overwrite).1).head? =
          some (.createStudyCalled force_overwrite)) ∧
    (∀ (cfg e1 : String) (e2 e3 : Option String) (ns : String)
        (force_overwrite study_exists : Bool),
        ((create_single_job_run cfg e1 e2 e3 ns force_overwrite study_exists).1).head? =
          some (.createStudyCalled force_overwrite)) ∧
    (∀ (fc : Bool) (dcj : Option ConfigJobs) (dac : Option AdditionalCommands)
        (ddg : Option DependenciesPerGen) (nc : String) (og : Bool) (wt : ℚ)
        (sched : List Bool),
        submitEntry fc dcj dac ddg nc og false wt sched =
          [.configureJobs fc dcj, .submitSweep og dac ddg nc]) ∧
    (∀ (fc : Bool) (dcj : Option ConfigJobs) (dac : Option AdditionalCommands)
        (ddg : Option DependenciesPerGen) (nc : String) (og : Bool) (wt : ℚ)
        (n : Nat),
        submitEntry fc dcj dac ddg nc og true wt (List.replicate n false ++ [true]) =
          .configureJobs fc dcj ::
            ((List.replicate n
              [SubmitEvent.submitSweep og dac ddg nc, SubmitEvent.sleep wt]).flatten ++
             [.submitSweep og dac ddg nc])) := by
  refine ⟨?_, ?_, ?_, ?_⟩
  · intro spec study_exists force_overwrite
    cases h : create_study spec study_exists force_overwrite with
    | error e => simp [createEntry, h]
    | ok t => cases h2 : lookupStr spec.dependencies "main_configuration" with
      | none => simp [createEntry, h, h2]
      | some m => simp [createEntry, h, h2]
  · intro cfg e1 e2 e3 ns force_overwrite study_exists
    cases h : create_study (single_job_dic_scan cfg e1 e2 e3 ns) study_exists force_overwrite with
    | error e => simp [create_single_job_run, h]
    | ok t => simp [create_single_job_run, h]
  · intro fc dcj dac ddg nc og wt sched
    simp [submitEntry]
  · intro fc dcj dac ddg nc og wt n
    simp [submitEntry, keep_submit_until_done_replicate]

/-! ## Claims about the generation templates -/

/-- The file-writing events of a script trace. -/
def writeEvents (evs : List ScriptEvent) : List ScriptEvent :=
  evs.filter (fun e => match e with | .writeFile _ _ => true | _ => false)

lemma writeEvents_nil : writeEvents [] = [] := rfl

lemma writeEvents_cons_load (p : String) (l : List ScriptEvent) :
    writeEvents (ScriptEvent.loadConfig p :: l) = writeEvents l := rfl

lemma writeEvents_cons_set (k : String) (l : List ScriptEvent) :
    writeEvents (ScriptEvent.setParam k :: l) = writeEvents l := rfl

lemma writeEvents_cons_runAdd (l : List ScriptEvent) :
    writeEvents (ScriptEvent.runAdd :: l) = writeEvents l := rfl

lemma writeEvents_cons_write (nm : String) (c : ConfigVal) (l : List ScriptEvent) :
    writeEvents (ScriptEvent.writeFile nm c :: l) =
      ScriptEvent.writeFile nm c :: writeEvents l := rfl

lemma writeEvents_append (a b : List ScriptEvent) :
    writeEvents (a ++ b) = writeEvents a ++ writeEvents b := by
  simp [writeEvents]

lemma writeEvents_mutate_params (params : List (String × ConfigVal)) :
    ∀ cfg : ConfigVal, writeEvents (mutate_params cfg params).1 = [] := by
  induction params with
  | nil => intro cfg; rfl
  | cons kv rest ih =>
      intro cfg
      obtain ⟨k, v⟩ := kv
      cases h : set_item_in_dic cfg k v with
      | ok cfg2 => simp [mutate_params, h, writeEvents_cons_set, ih]
      | error e => simp [mutate_params, h, writeEvents_cons_set, writeEvents_nil]

lemma mutate_params_no_write (params : List (String × ConfigVal)) (cfg : ConfigVal)
    (nm : String) (c : ConfigVal) :
    ScriptEvent.writeFile nm c ∉ (mutate_params cfg params).1 := by
  intro hmem
  have hw : ScriptEvent.writeFile nm c ∈ writeEvents (mutate_params cfg params).1 :=
    List.mem_filter.2 ⟨hmem, rfl⟩
  rw [writeEvents_mutate_params] at hw
  exact absurd hw (List.not_mem_nil _)

/-- The configuration file of the worked examples for
`generation_4_custom_dummy.py`: `a_random_nest.b = 2`,
`result.x2_plus_z2 = 5`. -/
def gen4_example_file : ConfigVal :=
  .dict (.cons "a_random_nest" (.dict (.cons "b" (.num 2) .nil))
    (.cons "result" (.dict (.cons "x2_plus_z2" (.num 5) .nil)) .nil))

/-- State of `gen4_example_file` after the injected mutation of `a_random_nest.b` to 3. -/
def gen4_example_mutated : ConfigVal :=
  .dict (.cons "a_random_nest" (.dict (.cons "b" (.num 3) .nil))
    (.cons "result" (.dict (.cons "x2_plus_z2" (.num 5) .nil)) .nil))

/-- State of `gen4_example_mutated` after `add`: the `result` entry holds `x_plus_z_3 = 15`. -/
def gen4_example_added : ConfigVal :=
  .dict (.cons "a_random_nest" (.dict (.cons "b" (.num 3) .nil))
    (.cons "result" (.dict (.cons "x_plus_z_3" (.num 15) .nil)) .nil))

/-- C6: evaluation of `generation_4_custom_dummy.py` at a configuration on
which loading, parameter mutation and `add` all succeed: the run stops at
the configuration-dump step with `NameError` (`os` is not imported), so the
resulting configuration is never written back to the basename-named file
the claim promises. -/
theorem generation_4_write_back_violated :
    generation_4_custom_dummy_main none gen4_example_file
        [("a_random_nest.b", .num 3)] =
      ([.loadConfig "config.yaml", .setParam "a_random_nest.b", .runAdd],
       .error (.nameError "os")) := by decide

/-- C9: whenever parameter mutation and the `add` computation succeed,
`generation_4_custom_dummy.py` run as `__main__` still fails with
`NameError` at the configuration-dump step (`os` is never imported) and
its trace contains no file write at all. -/
theorem generation_4_dump_always_raises_nameError :
    ∀ (path : Option String) (file : ConfigVal) (params : List (String × ConfigVal))
      (cfg1 cfg2 : ConfigVal),
      (mutate_params file params).2 = .ok cfg1 →
      gen4_add cfg1 = .ok cfg2 →
      (generation_4_custom_dummy_main path file params).2 = .error (.nameError "os") ∧
      ∀ (nm : String) (c : ConfigVal),
        ScriptEvent.writeFile nm c ∉ (generation_4_custom_dummy_main path file params).1 := by
  intro path file params cfg1 cfg2 h1 h2
  constructor
  · simp [generation_4_custom_dummy_main, template_main, h1, h2,
      generation_4_custom_dummy_imports]
  · intro nm c
    have htr : (generation_4_custom_dummy_main path file params).1 =
        ScriptEvent.loadConfig (resolve_path_configuration path) ::
          ((mutate_params file params).1 ++ [ScriptEvent.runAdd]) := by
      simp [generation_4_custom_dummy_main, template_main, h1, h2,
        generation_4_custom_dummy_imports]
    rw [htr]
    intro hmem
    rcases List.mem_cons.1 hmem with h | h
    · simp at h
    · rcases List.mem_append.1 h with h2m | h2m
      · exact absurd h2m (mutate_params_no_write params file nm c)
      · simp at h2m

/-- Witness for C9: at the worked example the mutation and `add` succeed,
and the run ends in `NameError` without writing anything. -/
theorem generation_4_dump_always_raises_nameError_witness :
    (generation_4_custom_dummy_main none gen4_example_file
        [("a_random_nest.b", .num 3)]).2 = .error (.nameError "os") :=
  (generation_4_dump_always_raises_nameError none gen4_example_file
    [("a_random_nest.b", .num 3)] gen4_example_mutated gen4_example_added
    (by decide) (by decide)).1

/-- The configuration file of the worked example for
`generation_1_dummy.py`: `a_random_nest.x = 2`,
`another_random_nest.and_another.z = 5`. -/
def gen1_example_file : ConfigVal :=
  .dict (.cons "a_random_nest" (.dict (.cons "x" (.num 2) .nil))
    (.cons "another_random_nest"
      (.dict (.cons "and_another" (.dict (.cons "z" (.num 5) .nil)) .nil)) .nil))

/-- State of `gen1_example_file` after `add`: the `result` entry holds `x_plus_z = 7`. -/
def gen1_example_result : ConfigVal :=
  .dict (.cons "a_random_nest" (.dict (.cons "x" (.num 2) .nil))
    (.cons "another_random_nest"
      (.dict (.cons "and_another" (.dict (.cons "z" (.num 5) .nil)) .nil))
      (.cons "result" (.dict (.cons "x_plus_z" (.num 7) .nil)) .nil)))

/-- Counterexample to C7: a successful run of `generation_1_dummy.py`
writes exactly one file — the updated configuration — and no separate
machine-readable "done" marker. -/
theorem generation_1_no_done_marker_counterexample :
    (generation_1_dummy_main none gen1_example_file []).2 = .ok gen1_example_result ∧
    writeEvents (generation_1_dummy_main none gen1_example_file []).1 =
      [.writeFile "config.yaml" gen1_example_result] := by decide

/-- C7 (amended): on successful completion, the generation template writes
exactly one artifact — the updated configuration, under the basename of the
configuration path; no separate done marker is written by the template
itself. -/
theorem generation_template_writes_only_result_artifact :
    ∀ (path : Option String) (file c : ConfigVal) (params : List (String × ConfigVal)),
      (generation_1_dummy_main path file params).2 = .ok c →
      writeEvents (generation_1_dummy_main path file params).1 =
        [.writeFile (os_path_basename (resolve_path_configuration path)) c] := by
  intro path file c params h
  cases hm : (mutate_params file params).2 with
  | error e =>
      exfalso
      simp [generation_1_dummy_main, template_main, hm] at h
  | ok cfg1 =>
      cases ha : gen1_add cfg1 with
      | error e =>
          exfalso
          simp [generation_1_dummy_main, template_main, hm, ha] at h
      | ok cfg2 =>
          have hc : c = cfg2 := by
            simp [generation_1_dummy_main, template_main, hm, ha,
              generation_1_dummy_imports] at h
            exact h.symm
          subst hc
          simp only [generation_1_dummy_main, template_main, hm, ha,
            generation_1_dummy_imports]
          simp only [show ("os" ∈ ["logging", "os", "load_dic_from_path",
              "set_item_in_dic", "write_dic_to_path"]) = True by simp,
            if_true, List.cons_append, List.nil_append]
          rw [writeEvents_cons_load, writeEvents_append, writeEvents_mutate_params,
            writeEvents_cons_runAdd, writeEvents_cons_write, writeEvents_nil]
          rfl

/-- Witness for C7 (amended): the worked example writes exactly the updated
configuration under `config.yaml`. -/
theorem generation_template_writes_only_result_artifact_witness :
    writeEvents (generation_1_dummy_main none gen1_example_file []).1 =
      [.writeFile "config.yaml" gen1_example_result] :=
  generation_template_writes_only_result_artifact none gen1_example_file
    gen1_example_result [] (by decide)

/-! ## Claims about `load_version_specific` -/

lemma float_lit_1_6_eq_decimal : float_lit_1_6 = 1.6 := by
  norm_num [float_lit_1_6]

lemma float_lit_1_3_eq_decimal : float_lit_1_3 = 1.3 := by
  norm_num [float_lit_1_3]

lemma float_lit_3_0_eq_decimal : float_lit_3_0 = 3 := by
  norm_num [float_lit_3_0]

/-- C10: `load_version_specific` with `ver_hllhc_optics` set to any value
other than `1.6` — including the explicitly handled `1.3` — fails with
`NameError` (`logging` is never imported in `xsuite_bbcw.py`); with both
version arguments `None` it fails with `AssertionError`; and the
`ValueError` branch is unreachable on every input. -/
theorem load_version_specific_raises :
    (∀ q : ℚ, q ≠ float_lit_1_6 →
        load_version_specific none (some q) = .error (.nameError "logging")) ∧
    load_version_specific none (some float_lit_1_3) = .error (.nameError "logging") ∧
    load_version_specific none none = .error .assertionError ∧
    (∀ a b : Option ℚ, load_version_specific a b ≠ .error .valueError) := by
  refine ⟨?_, ?_, ?_, ?_⟩
  · intro q h
    simp [load_version_specific, h, xsuite_bbcw_imports]
  · simp [load_version_specific, xsuite_bbcw_imports,
      show float_lit_1_3 ≠ float_lit_1_6 by decide]
  · simp [load_version_specific]
  · intro a b
    cases a with
    | none =>
        cases b with
        | none => simp [load_version_specific]
        | some v =>
            by_cases hv : v = float_lit_1_6 <;>
              simp [load_version_specific, hv, xsuite_bbcw_imports]
    | some w =>
        cases b with
        | none =>
            by_cases hw : w = float_lit_3_0 <;>
              simp [load_version_specific, hw]
        | some v => simp [load_version_specific]

/-- Witness for C10: version `1.3` is not `1.6` and indeed raises
`NameError`. -/
theorem load_version_specific_raises_witness :
    load_version_specific none (some float_lit_1_3) = .error (.nameError "logging") :=
  load_version_specific_raises.1 float_lit_1_3 (by decide)

end StudyDA
